import Mathlib

/-!
Shallow embedding of `Autocare_API_Browse.py` (repository ryexdev/autocareapi).

The script authenticates against the AutoCare identity service, lets the user
pick a database and a table, and downloads the full paginated table to a JSON
file.  Every definition below is translated from the Python source; network
responses, the token file and the user's keyboard input are passed in as
explicit values, and the `requests` / `json` / `datetime` library calls are
modelled at the value level as documented on each definition.
-/

/-- A `datetime` value is modelled as an integer timestamp.  `isoformat`
produces a well-formed ISO string, so a string field that may or may not be
parseable by `datetime.fromisoformat` is modelled by this type: `valid t`
stands for a well-formed ISO string denoting time `t`, `malformed s` for a
string that `fromisoformat` rejects (raising `ValueError`). -/
inductive IsoVal where
  | valid (t : Int)
  | malformed (s : String)
deriving Repr, DecidableEq

/-- `datetime.fromisoformat`, returning `none` where Python raises
`ValueError`. -/
def fromisoformat : IsoVal → Option Int
  | .valid t => some t
  | .malformed _ => none

/-- The token dict handled by the script: the JSON body of the token
response, augmented with the derived `expiration_time` field.  A `none`
field models an absent dict key. -/
structure TokenRecord where
  access_token : Option String := none
  token_type : Option String := none
  expires_in : Option Int := none
  expiration_time : Option IsoVal := none
deriving Repr, DecidableEq

/-- `is_token_valid(token_data)` (lines 112-116).  `token_data` is `none`
for Python `None` (and an empty dict is falsy with no `expiration_time`
key, landing in the same first branch).  The result is `Except.error ()`
where the Python raises `ValueError` out of `datetime.fromisoformat`,
and `Except.ok b` where it returns `b`:
`datetime.now() < expiration_time` is a strict comparison. -/
def is_token_valid (now : Int) (token_data : Option TokenRecord) : Except Unit Bool :=
  match token_data with
  | none => .ok false
  | some td =>
    match td.expiration_time with
    | none => .ok false
    | some iso =>
      match fromisoformat iso with
      | none => .error ()
      | some expiration_time => .ok (decide (now < expiration_time))

/-- The parsed JSON body of the identity server's reply
(`response.json()`); `none` fields model absent keys. -/
structure TokenJson where
  access_token : Option String := none
  token_type : Option String := none
  expires_in : Option Int := none
deriving Repr, DecidableEq

/-- An HTTP response from the identity endpoint as `requests` presents it:
numeric status code, textual reason phrase, raw body text, parsed JSON
body. -/
structure TokenHttpResponse where
  status_code : Nat
  reason : String
  text : String
  json : TokenJson
deriving Repr, DecidableEq

/-- Message of the exception raised at line 92. -/
def accessTokenMissingMsg : String :=
  "Access token not found in the response."

/-- Message of the exception raised at line 95: it interpolates
`response.reason` (the textual reason phrase) and `response.text`. -/
def tokenHttpErrorMsg (reason text : String) : String :=
  "Error retrieving token: " ++ reason ++ ", Details: " ++ text

/-- The `except Exception` handler at lines 99-100 rewraps any exception
message. -/
def tokenWrapMsg (inner : String) : String :=
  "An error occurred while retrieving the token: " ++ inner

/-- `TokenService.get_bearer_token` (lines 71-100), for a request that
reached the server and came back as `response` at time `now`
(`datetime.now()` at line 88).  On HTTP 200 with an `access_token` key the
response dict is augmented with
`expiration_time = now + token_data.get("expires_in", 3600)` and returned;
otherwise the raised exception's message (wrapped by the handler at
lines 99-100) is returned as the error. -/
def get_bearer_token (now : Int) (response : TokenHttpResponse) :
    Except String TokenRecord :=
  if response.status_code = 200 then
    match response.json.access_token with
    | some _ =>
      let expires_in := response.json.expires_in.getD 3600
      let expiration_time := now + expires_in
      .ok { access_token := response.json.access_token
            token_type := response.json.token_type
            expires_in := response.json.expires_in
            expiration_time := some (.valid expiration_time) }
    | none => .error (tokenWrapMsg accessTokenMissingMsg)
  else
    .error (tokenWrapMsg (tokenHttpErrorMsg response.reason response.text))

/-- Substring test on strings, via infix of the character lists. -/
def containsSub (s pat : String) : Bool :=
  decide (pat.data <:+: s.data)

/-- C4 counterexample record: a future `expiration_time`, no
`access_token`. -/
def noAccessTokenRec : TokenRecord :=
  { access_token := none, expiration_time := some (.valid 10) }

/-- C6 counterexample record: a malformed `expiration_time` string. -/
def malformedExpiryRec : TokenRecord :=
  { access_token := some "T", expiration_time := some (.malformed "garbage") }

/-- Helper: an `Except` value cannot be both an error and an ok. -/
theorem except_error_ne_ok {e : Unit} {b : Bool} :
    (Except.error e : Except Unit Bool) ≠ Except.ok b := fun h => Except.noConfusion h

/-- C4 counterexample: `noAccessTokenRec` has no `access_token` field, yet
`is_token_valid` classifies it as valid at time `0` (its `expiration_time`
is in the future), contradicting the claim that any record missing
`access_token` is classified invalid. -/
theorem is_token_valid_missing_access_token_cex :
    noAccessTokenRec.access_token = none ∧
    is_token_valid 0 (some noAccessTokenRec) = Except.ok true := by
  exact ⟨rfl, rfl⟩

/-- C4 (amended): `is_token_valid` never inspects `access_token`; its
result is unchanged under any modification of that field, so a record
missing `access_token` but carrying an unexpired `expiration_time` is
classified valid. -/
theorem is_token_valid_independent_of_access_token
    (now : Int) (r : TokenRecord) (a : Option String) :
    is_token_valid now (some { r with access_token := a }) =
      is_token_valid now (some r) := rfl

/-- C5: `is_token_valid` returns `false` when the record is absent or has
no `expiration_time` field, and on a well-formed `expiration_time` it
returns `true` iff the current time is strictly before it. -/
theorem is_token_valid_spec (now : Int) :
    is_token_valid now none = Except.ok false ∧
    (∀ r : TokenRecord, r.expiration_time = none →
      is_token_valid now (some r) = Except.ok false) ∧
    (∀ (r : TokenRecord) (t : Int), r.expiration_time = some (.valid t) →
      (is_token_valid now (some r) = Except.ok true ↔ now < t)) := by
  refine ⟨rfl, ?_, ?_⟩
  · intro r h
    simp [is_token_valid, h]
  · intro r t h
    simp [is_token_valid, h, fromisoformat]

/-- C5 witness: at time 3 a record expiring at time 7 is valid. -/
theorem is_token_valid_spec_witness :
    is_token_valid 3 (some { expiration_time := some (.valid 7) }) = Except.ok true :=
  ((is_token_valid_spec 3).2.2 { expiration_time := some (.valid 7) } 7 rfl).mpr (by decide)

/-- C6 counterexample: on a record whose `expiration_time` is present but
malformed, `is_token_valid` propagates the `ValueError` from
`datetime.fromisoformat` (modelled as `Except.error ()`) instead of
returning `false`. -/
theorem is_token_valid_malformed_cex :
    malformedExpiryRec.expiration_time = some (.malformed "garbage") ∧
    is_token_valid 0 (some malformedExpiryRec) = Except.error () ∧
    is_token_valid 0 (some malformedExpiryRec) ≠ Except.ok false :=
  ⟨rfl, rfl, except_error_ne_ok⟩

/-- C6 (amended): on every record whose `expiration_time` field is present
but malformed, `is_token_valid` fails (uncaught `ValueError`) rather than
returning `false`; it is total only over absent records and absent
fields. -/
theorem is_token_valid_malformed_raises
    (now : Int) (r : TokenRecord) (s : String)
    (h : r.expiration_time = some (.malformed s)) :
    is_token_valid now (some r) = Except.error () := by
  simp [is_token_valid, h, fromisoformat]

/-- C6 witness. -/
theorem is_token_valid_malformed_raises_witness :
    is_token_valid 0 (some malformedExpiryRec) = Except.error () :=
  is_token_valid_malformed_raises 0 malformedExpiryRec "garbage" rfl

/-- C7: on an HTTP 200 token-exchange response containing `access_token`,
`get_bearer_token` returns the response record augmented with
`expiration_time = now + expires_in`, where `expires_in` defaults to 3600
when the response lacks the field. -/
theorem get_bearer_token_success
    (now : Int) (response : TokenHttpResponse) (tok : String)
    (h200 : response.status_code = 200)
    (htok : response.json.access_token = some tok) :
    get_bearer_token now response =
      Except.ok { access_token := some tok
                  token_type := response.json.token_type
                  expires_in := response.json.expires_in
                  expiration_time :=
                    some (.valid (now + response.json.expires_in.getD 3600)) } := by
  simp [get_bearer_token, h200, htok]

/-- C7 witness: a 200 response with `expires_in = 10` acquired at time 100
yields a record expiring at 110; one lacking `expires_in` defaults to
3600. -/
theorem get_bearer_token_success_witness :
    get_bearer_token 100
        { status_code := 200, reason := "OK", text := "",
          json := { access_token := some "T", expires_in := some 10 } } =
      Except.ok { access_token := some "T", token_type := none,
                  expires_in := some 10,
                  expiration_time := some (.valid 110) } ∧
    get_bearer_token 100
        { status_code := 200, reason := "OK", text := "",
          json := { access_token := some "T" } } =
      Except.ok { access_token := some "T", token_type := none,
                  expires_in := none,
                  expiration_time := some (.valid 3700) } :=
  ⟨get_bearer_token_success 100 _ "T" rfl rfl,
   get_bearer_token_success 100 _ "T" rfl rfl⟩

/-- C8 counterexample response: HTTP 401 with reason phrase
"Unauthorized". -/
def tokenCexResp : TokenHttpResponse :=
  { status_code := 401, reason := "Unauthorized", text := "invalid_client", json := {} }

set_option maxRecDepth 4000 in
/-- C8 counterexample: on a non-200 token-exchange response the error
message interpolates `response.reason` (the textual reason phrase), not
the numeric HTTP status: the decimal status code 401 does not occur
anywhere in the message. -/
theorem get_bearer_token_status_code_cex :
    toString tokenCexResp.status_code = "401" ∧
    get_bearer_token 0 tokenCexResp =
      Except.error "An error occurred while retrieving the token: Error retrieving token: Unauthorized, Details: invalid_client" ∧
    containsSub "An error occurred while retrieving the token: Error retrieving token: Unauthorized, Details: invalid_client" "401" = false := by
  refine ⟨rfl, rfl, by decide⟩

/-- C8 (amended): on every non-200 token-exchange response,
`get_bearer_token` fails with an error whose message contains the
response's reason phrase and its body text (but not necessarily the
numeric status code); on a 200 response missing `access_token` it fails
with the distinct "Access token not found" authentication error, which
no transport error message ever equals. -/
theorem get_bearer_token_error_messages :
    (∀ (now : Int) (resp : TokenHttpResponse), resp.status_code ≠ 200 →
      get_bearer_token now resp =
        Except.error (tokenWrapMsg (tokenHttpErrorMsg resp.reason resp.text)) ∧
      containsSub (tokenWrapMsg (tokenHttpErrorMsg resp.reason resp.text)) resp.reason = true ∧
      containsSub (tokenWrapMsg (tokenHttpErrorMsg resp.reason resp.text)) resp.text = true) ∧
    (∀ (now : Int) (resp : TokenHttpResponse), resp.status_code = 200 →
      resp.json.access_token = none →
      get_bearer_token now resp = Except.error (tokenWrapMsg accessTokenMissingMsg)) ∧
    (∀ reason text : String,
      tokenWrapMsg (tokenHttpErrorMsg reason text) ≠ tokenWrapMsg accessTokenMissingMsg) := by
  refine ⟨?_, ?_, ?_⟩
  · intro now resp h
    refine ⟨by simp [get_bearer_token, h], ?_, ?_⟩
    · simp only [containsSub, tokenWrapMsg, tokenHttpErrorMsg, String.data_append,
        decide_eq_true_eq]
      exact ⟨"An error occurred while retrieving the token: ".data ++
               "Error retrieving token: ".data,
             ", Details: ".data ++ resp.text.data, by simp⟩
    · simp only [containsSub, tokenWrapMsg, tokenHttpErrorMsg, String.data_append,
        decide_eq_true_eq]
      exact ⟨"An error occurred while retrieving the token: ".data ++
               ("Error retrieving token: ".data ++ resp.reason.data ++ ", Details: ".data),
             [], by simp⟩
  · intro now resp h200 hnone
    simp [get_bearer_token, h200, hnone]
  · intro reason text h
    have hd := congrArg String.data h
    simp only [tokenWrapMsg, tokenHttpErrorMsg, accessTokenMissingMsg,
      String.data_append, List.append_assoc] at hd
    have h2 := List.append_cancel_left hd
    have h3 : "Error retrieving token: ".data <+:
        "Access token not found in the response.".data :=
      ⟨reason.data ++ (", Details: ".data ++ text.data), h2⟩
    exact absurd h3 (by decide)

/-- C8 witness: concrete 500 transport failure and concrete 200 response
missing the token. -/
theorem get_bearer_token_error_messages_witness :
    (get_bearer_token 0 { status_code := 500, reason := "Server Error", text := "boom",
                          json := {} } =
      Except.error (tokenWrapMsg (tokenHttpErrorMsg "Server Error" "boom"))) ∧
    (get_bearer_token 0 { status_code := 200, reason := "OK", text := "x", json := {} } =
      Except.error (tokenWrapMsg accessTokenMissingMsg)) :=
  ⟨(get_bearer_token_error_messages.1 0
      { status_code := 500, reason := "Server Error", text := "boom", json := {} }
      (by decide)).1,
   get_bearer_token_error_messages.2.1 0
      { status_code := 200, reason := "OK", text := "x", json := {} } rfl rfl⟩

/-- The parsed value of the `X-Pagination` response header: a JSON object
whose `nextPageLink` key may be absent or null, modelled as `none`
(`pagination_info.get("nextPageLink")` then yields Python `None`). -/
structure PaginationInfo where
  nextPageLink : Option String
deriving Repr, DecidableEq

/-- An HTTP response from a table-data URL as the script consumes it:
status code, raw body text (for the error message), the parsed JSON
record array, and the `X-Pagination` header — `none` when the header is
absent, otherwise its JSON-decoded object (the script would raise on a
present but undecodable header; responses here carry decodable ones).
Records are opaque pass-through values of type `Rec`. -/
structure TableHttpResponse (Rec : Type) where
  status_code : Nat
  text : String
  records : List Rec
  xPagination : Option PaginationInfo
deriving Repr, DecidableEq

/-- Observable file/network I/O of `download_table`: the GET requests it
issues, in order, and the final write of the output file. -/
inductive DlEvent (Rec : Type) where
  | get (url : String)
  | writeFile (path : String) (records : List Rec)
deriving Repr, DecidableEq

/-- Whether an event is a GET request. -/
def DlEvent.isGet {Rec : Type} : DlEvent Rec → Bool
  | .get _ => true
  | .writeFile _ _ => false

/-- Number of GET requests in an event trace. -/
def countGets {Rec : Type} (events : List (DlEvent Rec)) : Nat :=
  (events.filter (fun e => e.isGet)).length

/-- `str.lower()`: lowercase every character (`Char.toLower` agrees with
Python on the ASCII names in use; it is applied over the character list
so that proofs can evaluate it). -/
def pyLower (s : String) : String := ⟨s.data.map Char.toLower⟩

/-- The initial URL built at line 149:
`https://{database_name.lower()}.autocarevip.com/api/v1.0/{database_name}/{table_name}`. -/
def initial_url (database_name table_name : String) : String :=
  "https://" ++ pyLower database_name ++ ".autocarevip.com/api/v1.0/" ++
    database_name ++ "/" ++ table_name

/-- Message of the exception raised at line 170; it interpolates the
numeric `response.status_code` and `response.text`. -/
def fetchTableErrMsg (table_name : String) (status : Nat) (text : String) : String :=
  "Failed to fetch table '" ++ table_name ++ "'. Status: " ++ toString status ++
    ", Details: " ++ text

/-- The handler at lines 176-177 rewraps the raised message. -/
def downloadWrapMsg (inner : String) : String :=
  "An error occurred while downloading the table: " ++ inner

/-- Python truthiness of `api_url` in `while api_url:` — `None` and the
empty string are falsy. -/
def urlTruthy : Option String → Bool
  | none => false
  | some u => !(u == "")

/-- The `while api_url:` loop of `download_table` (lines 153-170).
`server` maps a URL to the response `requests.get` returns for it; `fuel`
bounds the number of iterations, with `none` meaning the bound was hit
(in Python the loop just keeps going — it has no termination guard).
The result pairs the loop's outcome — `Except.ok` with the accumulated
records, or the message of the exception raised on a non-200 response —
with the trace of I/O events.  The `print` calls are not modelled. -/
def downloadLoop {Rec : Type} (table_name : String)
    (server : String → TableHttpResponse Rec) :
    Nat → Option String → List Rec → List (DlEvent Rec) →
    Option (Except String (List Rec) × List (DlEvent Rec))
  | 0, _, _, _ => none
  | fuel + 1, api_url, all_records, events =>
    if urlTruthy api_url = false then some (.ok all_records, events)
    else
      let u := api_url.getD ""
      let response := server u
      let events := events ++ [.get u]
      if response.status_code = 200 then
        let all_records := all_records ++ response.records
        match response.xPagination with
        | some pagination_info =>
          downloadLoop table_name server fuel pagination_info.nextPageLink
            all_records events
        | none => some (.ok all_records, events)
      else
        some (.error (fetchTableErrMsg table_name response.status_code response.text),
          events)

/-- `download_table` (lines 146-177): run the pagination loop from the
initial URL; on success write all collected records to the output file,
once, after the loop (lines 173-174); on failure the exception is
rewrapped by the handler at lines 176-177 and nothing is written.  The
bearer token only feeds the request headers and does not influence the
modelled behaviour, so it is omitted. -/
def download_table {Rec : Type} (database_name table_name : String)
    (server : String → TableHttpResponse Rec) (output_file_path : String)
    (fuel : Nat) : Option (Except String (List Rec) × List (DlEvent Rec)) :=
  match downloadLoop table_name server fuel
      (some (initial_url database_name table_name)) [] [] with
  | none => none
  | some (.ok all_records, events) =>
    some (.ok all_records, events ++ [.writeFile output_file_path all_records])
  | some (.error e, events) => some (.error (downloadWrapMsg e), events)

/-- The initial URL is never the empty string, so the loop always runs at
least once. -/
theorem initial_url_ne_empty (database_name table_name : String) :
    initial_url database_name table_name ≠ "" := by
  intro h
  have := congrArg String.length h
  simp [initial_url, String.length_append] at this
  exact absurd this.1.1.1.1.1 (by decide)

/-- Core pagination lemma: if from page `k` on the server serves pages
`recs k, …, recs (N-1)`, each page linking to the next and the last one
terminal, the loop accumulates them in order, issuing one GET per
page. -/
theorem downloadLoop_pages {Rec : Type} (table_name : String)
    (server : String → TableHttpResponse Rec)
    (N : Nat) (url : Nat → String) (recs : Nat → List Rec)
    (hmid : ∀ i, i + 1 < N →
      (server (url i)).status_code = 200 ∧
      (server (url i)).records = recs i ∧
      (server (url i)).xPagination = some ⟨some (url (i + 1))⟩ ∧
      url (i + 1) ≠ "")
    (hlast : (server (url (N - 1))).status_code = 200 ∧
      (server (url (N - 1))).records = recs (N - 1) ∧
      ((server (url (N - 1))).xPagination = none ∨
       (server (url (N - 1))).xPagination = some ⟨none⟩ ∨
       (server (url (N - 1))).xPagination = some ⟨some ""⟩)) :
    ∀ (m k : Nat) (acc : List Rec) (events : List (DlEvent Rec)) (fuel : Nat),
      k + m = N → 0 < m → url k ≠ "" → m + 1 ≤ fuel →
      downloadLoop table_name server fuel (some (url k)) acc events =
        some (.ok (acc ++ (List.range' k m).flatMap recs),
          events ++ (List.range' k m).map (fun i => DlEvent.get (url i))) := by
  intro m
  induction m with
  | zero => intro k acc events fuel _ hm; omega
  | succ m ih =>
    intro k acc events fuel hkm hm hk hfuel
    obtain ⟨f, rfl⟩ : ∃ f, fuel = f + 1 := ⟨fuel - 1, by omega⟩
    have htruthy : ¬ (urlTruthy (some (url k)) = false) := by
      simp [urlTruthy, hk]
    by_cases hm0 : m = 0
    · subst hm0
      have hkN : k = N - 1 := by omega
      obtain ⟨h200, hrec, hterm⟩ := hlast
      rw [← hkN] at h200 hrec hterm
      obtain ⟨f1, rfl⟩ : ∃ f1, f = f1 + 1 := ⟨f - 1, by omega⟩
      rcases hterm with hx | hx | hx
      · simp [downloadLoop, htruthy, h200, hrec, hx, List.range'_succ]
      · simp [downloadLoop, htruthy, h200, hrec, hx, urlTruthy, hk, List.range'_succ]
      · simp [downloadLoop, htruthy, h200, hrec, hx, urlTruthy, hk, List.range'_succ]
    · obtain ⟨h200, hrec, hxpag, hne⟩ := hmid k (by omega)
      have step := ih (k + 1) (acc ++ recs k) (events ++ [.get (url k)]) f
        (by omega) (by omega) hne (by omega)
      have hred : downloadLoop table_name server (f + 1) (some (url k)) acc events =
          downloadLoop table_name server f (some (url (k + 1))) (acc ++ recs k)
            (events ++ [DlEvent.get (url k)]) := by
        simp [downloadLoop, htruthy, h200, hxpag, hrec]
      rw [hred, step]
      simp [List.range'_succ, List.append_assoc]

/-- C1: for a server trace of `N` linked pages — each page `i < N-1`
carrying an `X-Pagination` header whose `nextPageLink` is a non-empty URL
for page `i+1`, the last page terminal (header absent, or its
`nextPageLink` absent or empty) — `download_table` issues exactly `N` GET
requests, accumulates the concatenation of all pages' record arrays in
page order with within-page order preserved, and writes that
concatenation. -/
theorem download_table_pagination {Rec : Type}
    (server : String → TableHttpResponse Rec)
    (database_name table_name output_file_path : String)
    (N fuel : Nat) (url : Nat → String) (recs : Nat → List Rec)
    (hN : 0 < N)
    (h0 : url 0 = initial_url database_name table_name)
    (hmid : ∀ i, i + 1 < N →
      (server (url i)).status_code = 200 ∧
      (server (url i)).records = recs i ∧
      (server (url i)).xPagination = some ⟨some (url (i + 1))⟩ ∧
      url (i + 1) ≠ "")
    (hlast : (server (url (N - 1))).status_code = 200 ∧
      (server (url (N - 1))).records = recs (N - 1) ∧
      ((server (url (N - 1))).xPagination = none ∨
       (server (url (N - 1))).xPagination = some ⟨none⟩ ∨
       (server (url (N - 1))).xPagination = some ⟨some ""⟩))
    (hfuel : N + 1 ≤ fuel) :
    download_table database_name table_name server output_file_path fuel =
      some (.ok ((List.range N).flatMap recs),
        (List.range N).map (fun i => DlEvent.get (url i)) ++
          [DlEvent.writeFile output_file_path ((List.range N).flatMap recs)]) ∧
    countGets ((List.range N).map (fun i => DlEvent.get (url i)) ++
      [DlEvent.writeFile output_file_path ((List.range N).flatMap recs)]) = N := by
  have hk0 : url 0 ≠ "" := by rw [h0]; exact initial_url_ne_empty _ _
  have hloop := downloadLoop_pages table_name server N url recs hmid hlast N 0 [] []
    fuel (by omega) hN hk0 hfuel
  constructor
  · rw [download_table, ← h0, hloop]
    simp [List.range_eq_range']
  · rw [countGets, List.filter_append]
    have h1 : List.filter (fun e : DlEvent Rec => e.isGet)
        ((List.range N).map (fun i => DlEvent.get (url i))) =
        (List.range N).map (fun i => DlEvent.get (url i)) := by
      rw [List.filter_eq_self]
      intro e he
      obtain ⟨i, _, rfl⟩ := List.mem_map.mp he
      rfl
    rw [h1]
    simp [DlEvent.isGet]

/-- Two-page test server for the C1 witness. -/
def pagServer : String → TableHttpResponse Nat := fun u =>
  if u = initial_url "DB" "T" then
    { status_code := 200, text := "", records := [1, 2],
      xPagination := some { nextPageLink := some "page2" } }
  else if u = "page2" then
    { status_code := 200, text := "", records := [3], xPagination := none }
  else
    { status_code := 404, text := "not found", records := [], xPagination := none }

/-- URLs of the two pages of `pagServer`. -/
def pagUrl : Nat → String := fun i =>
  if i = 0 then initial_url "DB" "T" else "page2"

/-- Record arrays of the two pages of `pagServer`. -/
def pagRecs : Nat → List Nat := fun i => if i = 0 then [1, 2] else [3]

set_option maxRecDepth 8000 in
/-- C1 witness: the two-page server yields both pages' records in order
with two GETs and one write. -/
theorem download_table_pagination_witness :
    download_table "DB" "T" pagServer "out.json" 3 =
      some (.ok ((List.range 2).flatMap pagRecs),
        (List.range 2).map (fun i => DlEvent.get (pagUrl i)) ++
          [DlEvent.writeFile "out.json" ((List.range 2).flatMap pagRecs)]) ∧
    countGets ((List.range 2).map (fun i => DlEvent.get (pagUrl i)) ++
      [DlEvent.writeFile "out.json" ((List.range 2).flatMap pagRecs)]) = 2 :=
  download_table_pagination pagServer "DB" "T" "out.json" 2 3 pagUrl pagRecs
    (by decide) (by decide)
    (fun i hi => by
      have h : i = 0 := by omega
      subst h
      exact ⟨by decide, by decide, by decide, by decide⟩)
    ⟨by decide, by decide, Or.inl (by decide)⟩
    (by decide)

/-- Every event the pagination loop itself appends is a GET: the loop
never writes a file. -/
theorem downloadLoop_events_gets {Rec : Type} (table_name : String)
    (server : String → TableHttpResponse Rec) :
    ∀ (fuel : Nat) (api_url : Option String) (acc : List Rec)
      (events : List (DlEvent Rec)) (r : Except String (List Rec))
      (events' : List (DlEvent Rec)),
      downloadLoop table_name server fuel api_url acc events = some (r, events') →
      ∃ tail, events' = events ++ tail ∧ ∀ e ∈ tail, e.isGet = true := by
  intro fuel
  induction fuel with
  | zero => intro api_url acc events r events' h; simp [downloadLoop] at h
  | succ f ih =>
    intro api_url acc events r events' h
    rw [downloadLoop] at h
    by_cases ht : urlTruthy api_url = false
    · rw [if_pos ht] at h
      obtain ⟨rfl, rfl⟩ : r = .ok acc ∧ events' = events := by
        simpa [eq_comm, and_comm] using h
      exact ⟨[], by simp⟩
    · rw [if_neg ht] at h
      simp only at h
      by_cases hs : (server (api_url.getD "")).status_code = 200
      · rw [if_pos hs] at h
        cases hx : (server (api_url.getD "")).xPagination with
        | some p =>
          rw [hx] at h
          obtain ⟨tail, htail, hget⟩ := ih _ _ _ _ _ h
          refine ⟨DlEvent.get (api_url.getD "") :: tail, by simpa using htail, ?_⟩
          intro e he
          rcases List.mem_cons.mp he with rfl | he
          · rfl
          · exact hget e he
        | none =>
          rw [hx] at h
          obtain ⟨rfl, rfl⟩ : r = .ok (acc ++ (server (api_url.getD "")).records) ∧
              events' = events ++ [DlEvent.get (api_url.getD "")] := by
            simpa [eq_comm, and_comm] using h
          exact ⟨[DlEvent.get (api_url.getD "")], rfl, by simp [DlEvent.isGet]⟩
      · rw [if_neg hs] at h
        obtain ⟨rfl, rfl⟩ : r = .error (fetchTableErrMsg table_name
              (server (api_url.getD "")).status_code (server (api_url.getD "")).text) ∧
            events' = events ++ [DlEvent.get (api_url.getD "")] := by
          simpa [eq_comm, and_comm] using h
        exact ⟨[DlEvent.get (api_url.getD "")], rfl, by simp [DlEvent.isGet]⟩

/-- Core abort lemma: if pages `k, …, j-1` answer 200 and link onward but
page `j` answers non-200, the loop stops at page `j` with the raising
message, having issued one GET per visited page and nothing else. -/
theorem downloadLoop_abort {Rec : Type} (table_name : String)
    (server : String → TableHttpResponse Rec)
    (j : Nat) (url : Nat → String)
    (hmid : ∀ i, i < j →
      (server (url i)).status_code = 200 ∧
      (server (url i)).xPagination = some ⟨some (url (i + 1))⟩ ∧
      url (i + 1) ≠ "")
    (hbad : (server (url j)).status_code ≠ 200) :
    ∀ (m k : Nat) (acc : List Rec) (events : List (DlEvent Rec)) (fuel : Nat),
      k + m = j → url k ≠ "" → m + 1 ≤ fuel →
      downloadLoop table_name server fuel (some (url k)) acc events =
        some (.error (fetchTableErrMsg table_name (server (url j)).status_code
            (server (url j)).text),
          events ++ (List.range' k (m + 1)).map (fun i => DlEvent.get (url i))) := by
  intro m
  induction m with
  | zero =>
    intro k acc events fuel hkm hk hfuel
    obtain ⟨f, rfl⟩ : ∃ f, fuel = f + 1 := ⟨fuel - 1, by omega⟩
    have hkj : k = j := by omega
    subst hkj
    have htruthy : ¬ (urlTruthy (some (url k)) = false) := by simp [urlTruthy, hk]
    simp [downloadLoop, htruthy, hbad, List.range'_succ]
  | succ m ih =>
    intro k acc events fuel hkm hk hfuel
    obtain ⟨f, rfl⟩ : ∃ f, fuel = f + 1 := ⟨fuel - 1, by omega⟩
    have htruthy : ¬ (urlTruthy (some (url k)) = false) := by simp [urlTruthy, hk]
    obtain ⟨h200, hxpag, hne⟩ := hmid k (by omega)
    have step := ih (k + 1) (acc ++ (server (url k)).records)
      (events ++ [.get (url k)]) f (by omega) hne (by omega)
    have hred : downloadLoop table_name server (f + 1) (some (url k)) acc events =
        downloadLoop table_name server f (some (url (k + 1)))
          (acc ++ (server (url k)).records) (events ++ [DlEvent.get (url k)]) := by
      simp [downloadLoop, htruthy, h200, hxpag]
    rw [hred, step]
    simp [List.range'_succ, List.append_assoc]

/-- C2: (1) if some request of the pagination loop returns a non-200
status, `download_table` aborts with an error whose message carries that
page's status, and its event trace holds only GETs — no file write; (2) in
every terminating run the output file is written at most once: exactly
once, as the last event after all pages accumulated, when the run
succeeds, and never when it fails. -/
theorem download_table_abort_and_write_once :
    (∀ (Rec : Type) (server : String → TableHttpResponse Rec)
      (database_name table_name output_file_path : String)
      (j fuel : Nat) (url : Nat → String),
      url 0 = initial_url database_name table_name →
      (∀ i, i < j →
        (server (url i)).status_code = 200 ∧
        (server (url i)).xPagination = some ⟨some (url (i + 1))⟩ ∧
        url (i + 1) ≠ "") →
      (server (url j)).status_code ≠ 200 →
      j + 1 ≤ fuel →
      download_table database_name table_name server output_file_path fuel =
        some (.error (downloadWrapMsg (fetchTableErrMsg table_name
            (server (url j)).status_code (server (url j)).text)),
          (List.range (j + 1)).map (fun i => DlEvent.get (url i))) ∧
      ∀ e ∈ (List.range (j + 1)).map (fun i => (DlEvent.get (url i) : DlEvent Rec)),
        DlEvent.isGet e = true) ∧
    (∀ (Rec : Type) (server : String → TableHttpResponse Rec)
      (database_name table_name output_file_path : String) (fuel : Nat)
      (res : Except String (List Rec)) (events : List (DlEvent Rec)),
      download_table database_name table_name server output_file_path fuel =
        some (res, events) →
      (∀ records, res = .ok records →
        ∃ gets, (∀ e ∈ gets, DlEvent.isGet e = true) ∧
          events = gets ++ [DlEvent.writeFile output_file_path records]) ∧
      (∀ msg, res = .error msg → ∀ e ∈ events, DlEvent.isGet e = true)) := by
  constructor
  · intro Rec server database_name table_name output_file_path j fuel url h0 hmid hbad hfuel
    have hk0 : url 0 ≠ "" := by rw [h0]; exact initial_url_ne_empty _ _
    have habort := downloadLoop_abort table_name server j url hmid hbad j 0 [] []
      fuel (by omega) hk0 hfuel
    constructor
    · rw [download_table, ← h0, habort]
      simp [List.range_eq_range']
    · intro e he
      obtain ⟨i, _, rfl⟩ := List.mem_map.mp he
      rfl
  · intro Rec server database_name table_name output_file_path fuel res events h
    rw [download_table] at h
    cases hl : downloadLoop table_name server fuel
        (some (initial_url database_name table_name)) [] [] with
    | none => rw [hl] at h; simp at h
    | some pr =>
      obtain ⟨r, evs⟩ := pr
      rw [hl] at h
      obtain ⟨tail, htail, hget⟩ :=
        downloadLoop_events_gets table_name server fuel _ [] [] r evs hl
      have hevs : ∀ e ∈ evs, DlEvent.isGet e = true := by
        intro e he
        rw [htail] at he
        exact hget e (by simpa using he)
      cases r with
      | ok recs =>
        obtain ⟨rfl, rfl⟩ : res = .ok recs ∧
            events = evs ++ [DlEvent.writeFile output_file_path recs] := by
          simpa [eq_comm, and_comm] using h
        constructor
        · intro records hres
          obtain rfl : recs = records := by simpa using hres
          exact ⟨evs, hevs, rfl⟩
        · intro msg hres
          simp at hres
      | error e =>
        obtain ⟨rfl, rfl⟩ : res = .error (downloadWrapMsg e) ∧ events = evs := by
          simpa [eq_comm, and_comm] using h
        constructor
        · intro records hres
          simp at hres
        · intro msg _
          exact hevs

/-- C2 witness server: page one is fine and links to `page2`, which
answers 500. -/
def abortServer : String → TableHttpResponse Nat := fun u =>
  if u = "page2" then
    { status_code := 500, text := "boom", records := [], xPagination := none }
  else
    { status_code := 200, text := "", records := [1],
      xPagination := some { nextPageLink := some "page2" } }

/-- C2 witness: the aborting run issues two GETs and no write, and carries
status 500; a succeeding run writes exactly once, at the end. -/
theorem download_table_abort_and_write_once_witness :
    (download_table "DB" "T" abortServer "out.json" 3 =
        some (.error (downloadWrapMsg (fetchTableErrMsg "T"
            (abortServer (pagUrl 1)).status_code (abortServer (pagUrl 1)).text)),
          (List.range 2).map (fun i => DlEvent.get (pagUrl i))) ∧
      ∀ e ∈ (List.range 2).map (fun i => (DlEvent.get (pagUrl i) : DlEvent Nat)),
        DlEvent.isGet e = true) ∧
    (∃ gets, (∀ e ∈ gets, DlEvent.isGet e = true) ∧
      [DlEvent.get (initial_url "DB" "T"), DlEvent.get "page2",
        DlEvent.writeFile "out.json" [1, 2, 3]] =
        gets ++ [DlEvent.writeFile "out.json" [1, 2, 3]]) := by
  constructor
  · exact download_table_abort_and_write_once.1 Nat abortServer "DB" "T" "out.json"
      1 3 pagUrl rfl
      (fun i hi => by
        have h : i = 0 := by omega
        subst h
        exact ⟨by decide, by decide, by decide⟩)
      (by decide) (by decide)
  · exact (download_table_abort_and_write_once.2 Nat pagServer "DB" "T" "out.json" 3
      (.ok [1, 2, 3])
      [DlEvent.get (initial_url "DB" "T"), DlEvent.get "page2",
        DlEvent.writeFile "out.json" [1, 2, 3]] rfl).1 [1, 2, 3] rfl

/-- Host part of the table-data URL: the lowercased database name as
subdomain of `autocarevip.com`. -/
def urlHost (database_name : String) : String :=
  pyLower database_name ++ ".autocarevip.com"

/-- Path part of the table-data URL: version prefix, then the database
name in its original casing, then the table name. -/
def urlPath (database_name table_name : String) : String :=
  "api/v1.0/" ++ database_name ++ "/" ++ table_name

/-- Splitting the literal between host and path. -/
theorem initial_url_decompose (database_name table_name : String) :
    initial_url database_name table_name =
      "https://" ++ urlHost database_name ++ "/" ++ urlPath database_name table_name := by
  have hlit : ((".autocarevip.com" ++ "/") ++ "api/v1.0/" : String) =
      ".autocarevip.com/api/v1.0/" := rfl
  simp only [initial_url, urlHost, urlPath, ← hlit, String.append_assoc]

/-- The first I/O of any terminating loop run is the GET of the starting
URL. -/
theorem downloadLoop_first_event {Rec : Type} (table_name : String)
    (server : String → TableHttpResponse Rec) :
    ∀ (fuel : Nat) (u : String) (acc : List Rec) (r : Except String (List Rec))
      (events' : List (DlEvent Rec)),
      u ≠ "" →
      downloadLoop table_name server fuel (some u) acc [] = some (r, events') →
      ∃ rest, events' = DlEvent.get u :: rest := by
  intro fuel u acc r events' hu h
  match fuel with
  | 0 => simp [downloadLoop] at h
  | f + 1 =>
    rw [downloadLoop] at h
    have htruthy : ¬ (urlTruthy (some u) = false) := by simp [urlTruthy, hu]
    rw [if_neg htruthy] at h
    simp only [Option.getD_some] at h
    by_cases hs : (server u).status_code = 200
    · rw [if_pos hs] at h
      cases hx : (server u).xPagination with
      | some p =>
        rw [hx] at h
        simp only [List.nil_append] at h
        obtain ⟨tail, htail, _⟩ :=
          downloadLoop_events_gets table_name server f _ _ [DlEvent.get u] r events' h
        exact ⟨tail, by simpa using htail⟩
      | none =>
        rw [hx] at h
        obtain ⟨rfl, rfl⟩ : r = .ok (acc ++ (server u).records) ∧
            events' = [] ++ [DlEvent.get u] := by
          simpa [eq_comm, and_comm] using h
        exact ⟨[], rfl⟩
    · rw [if_neg hs] at h
      obtain ⟨rfl, rfl⟩ : r = .error (fetchTableErrMsg table_name
            (server u).status_code (server u).text) ∧
          events' = [] ++ [DlEvent.get u] := by
        simpa [eq_comm, and_comm] using h
      exact ⟨[], rfl⟩

/-- C10: `download_table`'s initial URL places the lowercased database
name in the subdomain and the original casing in the path; two casings of
one name give the same host but different paths and URLs, and every
terminating run's first request is a GET of exactly this URL. -/
theorem download_table_initial_url :
    (∀ database_name table_name : String,
      initial_url database_name table_name =
        "https://" ++ urlHost database_name ++ "/" ++
          urlPath database_name table_name) ∧
    (∀ d₁ d₂ : String, pyLower d₁ = pyLower d₂ → urlHost d₁ = urlHost d₂) ∧
    (pyLower "VCdb" = pyLower "vcdb" ∧ urlHost "VCdb" = urlHost "vcdb" ∧
      urlPath "VCdb" "Make" ≠ urlPath "vcdb" "Make" ∧
      initial_url "VCdb" "Make" ≠ initial_url "vcdb" "Make") ∧
    (∀ (Rec : Type) (server : String → TableHttpResponse Rec)
      (database_name table_name output_file_path : String) (fuel : Nat)
      (r : Except String (List Rec)) (events : List (DlEvent Rec)),
      download_table database_name table_name server output_file_path fuel =
        some (r, events) →
      ∃ rest, events = DlEvent.get (initial_url database_name table_name) :: rest) := by
  refine ⟨initial_url_decompose, ?_, ?_, ?_⟩
  · intro d₁ d₂ h
    rw [urlHost, urlHost, h]
  · exact ⟨by decide, by decide, by decide, by decide⟩
  · intro Rec server database_name table_name output_file_path fuel r events h
    rw [download_table] at h
    cases hl : downloadLoop table_name server fuel
        (some (initial_url database_name table_name)) [] [] with
    | none => rw [hl] at h; simp at h
    | some pr =>
      obtain ⟨r', evs⟩ := pr
      rw [hl] at h
      obtain ⟨rest, rfl⟩ := downloadLoop_first_event table_name server fuel _ _ r' evs
        (initial_url_ne_empty database_name table_name) hl
      cases r' with
      | ok recs =>
        obtain ⟨rfl, rfl⟩ : r = .ok recs ∧
            events = (DlEvent.get (initial_url database_name table_name) :: rest) ++
              [DlEvent.writeFile output_file_path recs] := by
          simpa [eq_comm, and_comm] using h
        exact ⟨rest ++ [DlEvent.writeFile output_file_path recs], by simp⟩
      | error e =>
        obtain ⟨rfl, rfl⟩ : r = .error (downloadWrapMsg e) ∧
            events = DlEvent.get (initial_url database_name table_name) :: rest := by
          simpa [eq_comm, and_comm] using h
        exact ⟨rest, rfl⟩

/-- C10 witness: same-host different-path at a concrete pair of casings,
and the first request of a concrete run hits the initial URL. -/
theorem download_table_initial_url_witness :
    urlHost "VCdb" = urlHost "vcdb" ∧
    (∃ rest, [DlEvent.get (initial_url "DB" "T"), DlEvent.get "page2",
        DlEvent.writeFile "out.json" [1, 2, 3]] =
      DlEvent.get (initial_url "DB" "T") :: rest) :=
  ⟨download_table_initial_url.2.1 "VCdb" "vcdb" (by decide),
   download_table_initial_url.2.2.2 Nat pagServer "DB" "T" "out.json" 3
     (.ok [1, 2, 3])
     [DlEvent.get (initial_url "DB" "T"), DlEvent.get "page2",
       DlEvent.writeFile "out.json" [1, 2, 3]] rfl⟩

/-- State of the token file at each path.  `none` models a missing file
and an empty one alike — exactly the two conditions
`load_token_from_file` (lines 106-110) maps to `None`; `some r` a file
holding the JSON serialization of `r`.  `json.dump` of a dict writes at
least two bytes, so a file `save_token_to_file` wrote is never empty, and
`json.load` of `json.dump` of a dict reproduces its structure (the
contract of Python's `json` module, external to this repository), so the
file content is modelled at the value level.  A file holding text that is
not JSON would make `json.load` raise; such a state is not reachable
through `save_token_to_file` and is outside this model. -/
def TokenStore := String → Option TokenRecord

/-- `save_token_to_file(token_data, file_path)` (lines 102-104): open in
"w" mode truncates, so the write overwrites unconditionally. -/
def save_token_to_file (token_data : TokenRecord) (file_path : String)
    (fs : TokenStore) : TokenStore :=
  fun p => if p = file_path then some token_data else fs p

/-- `load_token_from_file(file_path)` (lines 106-110): `None` when the
file is missing or empty, otherwise the parsed content. -/
def load_token_from_file (file_path : String) (fs : TokenStore) :
    Option TokenRecord :=
  fs file_path

/-- C9: loading right after saving returns a record structurally equal to
the one saved — also after an overwriting second save — and a save leaves
every other path untouched. -/
theorem save_then_load_roundtrip :
    (∀ (r : TokenRecord) (p : String) (fs : TokenStore),
      load_token_from_file p (save_token_to_file r p fs) = some r) ∧
    (∀ (r₁ r₂ : TokenRecord) (p : String) (fs : TokenStore),
      load_token_from_file p
        (save_token_to_file r₂ p (save_token_to_file r₁ p fs)) = some r₂) ∧
    (∀ (r : TokenRecord) (p q : String) (fs : TokenStore), q ≠ p →
      load_token_from_file q (save_token_to_file r p fs) =
        load_token_from_file q fs) := by
  refine ⟨?_, ?_, ?_⟩
  · intro r p fs
    simp [load_token_from_file, save_token_to_file]
  · intro r₁ r₂ p fs
    simp [load_token_from_file, save_token_to_file]
  · intro r p q fs h
    simp [load_token_from_file, save_token_to_file, h]

/-- C9 witness: a concrete round-trip on the empty store at the script's
token path, and independence of a second path. -/
theorem save_then_load_roundtrip_witness :
    load_token_from_file "C:/Users/rhenderson/Desktop/token.txt"
      (save_token_to_file noAccessTokenRec "C:/Users/rhenderson/Desktop/token.txt"
        (fun _ => none)) = some noAccessTokenRec ∧
    load_token_from_file "other.txt"
      (save_token_to_file noAccessTokenRec "C:/Users/rhenderson/Desktop/token.txt"
        (fun _ => none)) = load_token_from_file "other.txt" (fun _ => none) :=
  ⟨save_then_load_roundtrip.1 noAccessTokenRec
      "C:/Users/rhenderson/Desktop/token.txt" (fun _ => none),
   save_then_load_roundtrip.2.2 noAccessTokenRec
      "C:/Users/rhenderson/Desktop/token.txt" "other.txt" (fun _ => none)
      (by decide)⟩

/-- A catalog response (`databases` / `tables` endpoints): status, body
text, and the name fields of the parsed JSON array (`databaseName`
respectively `TableName`). -/
structure CatalogResponse where
  status_code : Nat
  text : String
  names : List String
deriving Repr, DecidableEq

/-- Inner message of the exception raised at line 126. -/
def fetchDataErrMsg (status : Nat) (text : String) : String :=
  "Failed to fetch data. Status: " ++ toString status ++ ", Details: " ++ text

/-- The handler at lines 128-129 rewraps the message. -/
def fetchDataWrapMsg (inner : String) : String :=
  "An error occurred while fetching data: " ++ inner

/-- `fetch_data` (lines 118-129) for the response the server returned:
the parsed JSON array on 200, otherwise the wrapped exception message. -/
def fetch_data (response : CatalogResponse) : Except String (List String) :=
  if response.status_code = 200 then .ok response.names
  else .error (fetchDataWrapMsg (fetchDataErrMsg response.status_code response.text))

/-- Inner message of the exception raised at line 142. -/
def fetchTablesErrMsg (database_name : String) (status : Nat) : String :=
  "Failed to fetch tables for database " ++ database_name ++ ". Status: " ++
    toString status

/-- The handler at lines 143-144 rewraps the message. -/
def fetchTablesWrapMsg (inner : String) : String :=
  "An error occurred while fetching tables: " ++ inner

/-- `fetch_tables_for_database` (lines 131-144): the `TableName` fields on
200 (well-formed table objects assumed), otherwise the wrapped exception
message. -/
def fetch_tables_for_database (database_name : String)
    (response : CatalogResponse) : Except String (List String) :=
  if response.status_code = 200 then .ok response.names
  else .error (fetchTablesWrapMsg (fetchTablesErrMsg database_name response.status_code))

/-- Outcome of one call of `display_menu_and_choose` over the stream of
keyboard inputs: a chosen item with the remaining inputs, the quit path
(`exit(0)` at line 188), or `input()` raising `EOFError` because the
stream is exhausted. -/
inductive MenuResult where
  | chosen (item : String) (rest : List String)
  | quit
  | eof
deriving Repr, DecidableEq

/-- `str.strip()`: drop whitespace from both ends (applied over the
character list so that proofs can evaluate it; Python also strips a few
rarer Unicode space characters, none of which occur here). -/
def pyStrip (s : String) : String :=
  ⟨((s.data.dropWhile Char.isWhitespace).reverse.dropWhile
      Char.isWhitespace).reverse⟩

/-- Digit run of `int(str)`: the accumulated value, or `none` on an empty
run or a non-digit character. -/
def pyIntDigits (l : List Char) : Option Nat :=
  if l = [] then none
  else l.foldl (fun acc c =>
    match acc with
    | none => none
    | some n => if c.isDigit then some (n * 10 + (c.toNat - 48)) else none)
    (some 0)

/-- `int(str)` on an already-stripped string: an optional sign followed by
decimal digits, `none` where Python raises `ValueError`.  (Python also
accepts underscores between digits and non-ASCII digits; no such input
occurs here.) -/
def pyInt (s : String) : Option Int :=
  match s.data with
  | '-' :: rest => (pyIntDigits rest).map (fun n => -(n : Int))
  | '+' :: rest => (pyIntDigits rest).map (fun n => (n : Int))
  | l => (pyIntDigits l).map (fun n => (n : Int))

/-- `display_menu_and_choose` (lines 179-199).  Each call consumes one
input; `choice.strip()` is `pyStrip`, `choice.lower()` is `pyLower`,
`int(choice)` is `pyInt`, and invalid input recurses on the remaining
stream.  The 1-based choice `n` selects element `n-1` after the
`0 <= choice_index < len(data)` bound check. -/
def display_menu_and_choose (data : List String) : List String → MenuResult
  | [] => .eof
  | choice :: rest =>
    let choice := pyStrip choice
    if pyLower choice = "q" then .quit
    else
      match pyInt choice with
      | some n =>
        let choice_index := n - 1
        if 0 ≤ choice_index ∧ choice_index < data.length then
          .chosen ((data.get? choice_index.toNat).getD "") rest
        else display_menu_and_choose data rest
      | none => display_menu_and_choose data rest

/-- Message of the `EOFError` that `input()` raises on an exhausted input
stream; it is an `Exception`, so the handler at line 239 catches it. -/
def eofErrorMsg : String := "EOF when reading a line"

/-- Output path built at line 236. -/
def output_path (database table : String) : String :=
  "C:/Users/rhenderson/Desktop/" ++ database ++ "_" ++ table ++ ".json"

/-- Everything the environment feeds one run of the script's `__main__`
block: the parsed token file, the clock, each endpoint's responses, the
keyboard input stream, and the pagination fuel bound. -/
structure World (Rec : Type) where
  token_file : Option TokenRecord
  now : Int
  token_response : TokenHttpResponse
  databases_response : CatalogResponse
  tables_response : String → CatalogResponse
  table_server : String → TableHttpResponse Rec
  inputs : List String
  fuel : Nat

/-- How one run of the script ends. -/
inductive MainOutcome where
  | completed
  | quitViaMenu
  | authFailure (msg : String)
  | handledError (msg : String)
  | uncaught
deriving Repr, DecidableEq

/-- The process exit code of each outcome.  `completed` falls off the end
of the script (0); `quitViaMenu` is `exit(0)`; `authFailure` is the
`exit(1)` at line 221 after printing `Error: {msg}`; `handledError` is
the handler at lines 239-240, which prints `Error: {msg}` and then falls
off the end of the script (0); `uncaught` is a traceback from the Python
interpreter, which exits 1. -/
def exit_code : MainOutcome → Nat
  | .completed => 0
  | .quitViaMenu => 0
  | .authFailure _ => 1
  | .handledError _ => 0
  | .uncaught => 1

/-- The `__main__` block (lines 201-240).  `none` models the pagination
loop exceeding the fuel bound (the script would still be looping).  The
save of a fresh token (line 217) only touches the token file and is not
part of the outcome.  Uncaught exceptions: the `ValueError` out of
`is_token_valid` at line 213 and the `KeyError` at line 225 when the
record `is_token_valid` accepted has no `access_token` key — both stand
outside any `try`. -/
def mainRun {Rec : Type} (w : World Rec) : Option MainOutcome :=
  match is_token_valid w.now w.token_file with
  | .error _ => some .uncaught
  | .ok valid =>
    let acquired : Except String TokenRecord :=
      if valid then .ok (w.token_file.getD {})
      else get_bearer_token w.now w.token_response
    match acquired with
    | .error msg => some (.authFailure msg)
    | .ok token_data =>
      match token_data.access_token with
      | none => some .uncaught
      | some _ =>
        match fetch_data w.databases_response with
        | .error msg => some (.handledError msg)
        | .ok database_names =>
          match display_menu_and_choose database_names w.inputs with
          | .quit => some .quitViaMenu
          | .eof => some (.handledError eofErrorMsg)
          | .chosen selected_database rest₁ =>
            match fetch_tables_for_database selected_database
                (w.tables_response selected_database) with
            | .error msg => some (.handledError msg)
            | .ok tables =>
              match display_menu_and_choose tables rest₁ with
              | .quit => some .quitViaMenu
              | .eof => some (.handledError eofErrorMsg)
              | .chosen selected_table _ =>
                match download_table selected_database selected_table
                    w.table_server (output_path selected_database selected_table)
                    w.fuel with
                | none => none
                | some (.ok _, _) => some .completed
                | some (.error msg, _) => some (.handledError msg)

/-- C3 counterexample world: a valid stored token, then the databases
endpoint answers 500. -/
def mainCexWorld : World Nat :=
  { token_file := some
      { access_token := some "T", expiration_time := some (.valid 100) },
    now := 0,
    token_response := { status_code := 200, reason := "OK", text := "", json := {} },
    databases_response := { status_code := 500, text := "boom", names := [] },
    tables_response := fun _ => { status_code := 200, text := "", names := [] },
    table_server := fun _ =>
      { status_code := 200, text := "", records := [], xPagination := none },
    inputs := [],
    fuel := 1 }

/-- C3 counterexample: a failing catalog request is neither a normal
completion, nor a user quit, nor an authentication failure; the script
prints `Error: {msg}` for it (the handler at lines 239-240) — yet the
process exit code is 0, not non-zero. -/
theorem main_handled_error_exit_zero_cex :
    mainRun mainCexWorld =
      some (.handledError (fetchDataWrapMsg (fetchDataErrMsg 500 "boom"))) ∧
    exit_code (.handledError (fetchDataWrapMsg (fetchDataErrMsg 500 "boom"))) = 0 ∧
    (MainOutcome.handledError (fetchDataWrapMsg (fetchDataErrMsg 500 "boom")) ≠
      .completed) ∧
    (MainOutcome.handledError (fetchDataWrapMsg (fetchDataErrMsg 500 "boom")) ≠
      .quitViaMenu) ∧
    ∀ m, MainOutcome.handledError (fetchDataWrapMsg (fetchDataErrMsg 500 "boom")) ≠
      .authFailure m := by
  refine ⟨by decide, rfl, by decide, by decide, fun m h => by cases h⟩

/-- C3 (amended): exit code 1 exactly on authentication failure and on
exceptions standing outside every `try` (interpreter exit); exit code 0
on normal completion, on user quit, and also on every error of the
browse/download phase, which the final handler catches and prints — not
the non-zero exit the claim states. -/
theorem main_exit_codes :
    (∀ (Rec : Type) (w : World Rec) (o : MainOutcome), mainRun w = some o →
      exit_code o = (match o with
        | .authFailure _ => 1 | .uncaught => 1 | _ => 0)) ∧
    (∀ (Rec : Type) (w : World Rec),
      is_token_valid w.now w.token_file = .ok false →
      w.token_response.status_code ≠ 200 →
      mainRun w = some (.authFailure (tokenWrapMsg
        (tokenHttpErrorMsg w.token_response.reason w.token_response.text))) ∧
      exit_code (.authFailure (tokenWrapMsg
        (tokenHttpErrorMsg w.token_response.reason w.token_response.text))) = 1) ∧
    (∀ (Rec : Type) (w : World Rec) (td : TokenRecord) (tok c : String)
      (rest : List String),
      is_token_valid w.now w.token_file = .ok true →
      w.token_file = some td → td.access_token = some tok →
      w.databases_response.status_code = 200 →
      w.inputs = c :: rest → pyLower (pyStrip c) = "q" →
      mainRun w = some .quitViaMenu ∧ exit_code .quitViaMenu = 0) ∧
    (∀ (Rec : Type) (w : World Rec) (td : TokenRecord) (tok : String),
      is_token_valid w.now w.token_file = .ok true →
      w.token_file = some td → td.access_token = some tok →
      w.databases_response.status_code ≠ 200 →
      mainRun w = some (.handledError (fetchDataWrapMsg
        (fetchDataErrMsg w.databases_response.status_code
          w.databases_response.text))) ∧
      exit_code (.handledError (fetchDataWrapMsg
        (fetchDataErrMsg w.databases_response.status_code
          w.databases_response.text))) = 0) ∧
    (∀ (Rec : Type) (w : World Rec) (td : TokenRecord) (tok d t : String)
      (records : List Rec) (events : List (DlEvent Rec)),
      is_token_valid w.now w.token_file = .ok true →
      w.token_file = some td → td.access_token = some tok →
      w.databases_response.status_code = 200 →
      w.databases_response.names = [d] →
      (w.tables_response d).status_code = 200 →
      (w.tables_response d).names = [t] →
      w.inputs = ["1", "1"] →
      download_table d t w.table_server (output_path d t) w.fuel =
        some (.ok records, events) →
      mainRun w = some .completed ∧ exit_code .completed = 0) := by
  refine ⟨?_, ?_, ?_, ?_, ?_⟩
  · intro Rec w o _
    cases o <;> rfl
  · intro Rec w hvalid hstatus
    refine ⟨?_, rfl⟩
    simp [mainRun, hvalid, get_bearer_token, hstatus]
  · intro Rec w td tok c rest hvalid htf hat hdb hinputs hq
    refine ⟨?_, rfl⟩
    rw [htf] at hvalid
    simp [mainRun, hvalid, htf, hat, fetch_data, hdb, hinputs,
      display_menu_and_choose, hq]
  · intro Rec w td tok hvalid htf hat hdb
    refine ⟨?_, rfl⟩
    rw [htf] at hvalid
    simp [mainRun, hvalid, htf, hat, fetch_data, hdb]
  · intro Rec w td tok d t records events hvalid htf hat hdb hnames htab htabnames
      hinputs hdl
    refine ⟨?_, rfl⟩
    have hmenu1 : display_menu_and_choose [d] ["1", "1"] = .chosen d ["1"] := by
      simp [display_menu_and_choose, pyStrip, pyInt, pyIntDigits, pyLower]
    have hmenu2 : display_menu_and_choose [t] ["1"] = .chosen t [] := by
      simp [display_menu_and_choose, pyStrip, pyInt, pyIntDigits, pyLower]
    rw [htf] at hvalid
    simp [mainRun, hvalid, htf, hat, fetch_data, hdb, hnames, hinputs, hmenu1,
      fetch_tables_for_database, htab, htabnames, hmenu2, hdl]

/-- C3 witness: one concrete world per scenario of the amended claim. -/
theorem main_exit_codes_witness :
    (mainRun { mainCexWorld with
        token_file := none,
        token_response :=
          { status_code := 400, reason := "Bad Request", text := "denied",
            json := {} } } =
      some (.authFailure (tokenWrapMsg (tokenHttpErrorMsg "Bad Request" "denied"))) ∧
      exit_code (.authFailure (tokenWrapMsg
        (tokenHttpErrorMsg "Bad Request" "denied"))) = 1) ∧
    (mainRun { mainCexWorld with
        databases_response := { status_code := 200, text := "", names := ["VCdb"] },
        inputs := ["q"] } = some .quitViaMenu ∧ exit_code .quitViaMenu = 0) ∧
    (mainRun { mainCexWorld with
        databases_response := { status_code := 200, text := "", names := ["VCdb"] },
        tables_response := fun _ =>
          { status_code := 200, text := "", names := ["Make"] },
        table_server := fun _ =>
          { status_code := 200, text := "", records := [7], xPagination := none },
        inputs := ["1", "1"], fuel := 2 } =
      some .completed ∧ exit_code .completed = 0) := by
  refine ⟨?_, ?_, ?_⟩
  · exact main_exit_codes.2.1 Nat _ rfl (by decide)
  · exact main_exit_codes.2.2.1 Nat _
      { access_token := some "T", expiration_time := some (.valid 100) } "T" "q" []
      rfl rfl rfl rfl rfl (by decide)
  · exact main_exit_codes.2.2.2.2 Nat _
      { access_token := some "T", expiration_time := some (.valid 100) } "T"
      "VCdb" "Make" [7]
      [DlEvent.get (initial_url "VCdb" "Make"),
        DlEvent.writeFile (output_path "VCdb" "Make") [7]]
      rfl rfl rfl rfl rfl rfl rfl rfl rfl
